import Mathlib

/-!
Shallow embedding of the tg2kb repository's two functioning scripts
(`tg_client.py` and `process_to_kb.py`) and proofs of the specified
properties of its export-and-annotate pipeline.

Modelling conventions:
* Python JSON values are the inductive `Json`; `json.dump`/`json.load` on a
  file are treated as a faithful round trip on the `Json` value (writing a
  value and parsing the file yields the same value), so a file's content is
  modelled by the `Json` value written to it, and a parse attempt by an
  `Except` value (`.error` = malformed JSON raising in `json.load`).
* Remote iterators (Telethon's `iter_dialogs` / `iter_messages`) are
  modelled as an `Except String (List _)`: `.ok xs` is a stream yielding
  `xs` in order, `.error e` a stream whose iteration raises.  In the Python
  code an exception anywhere in the `try` block discards the partially
  accumulated list and returns `[]`, which the `.error` branch mirrors.
* stdin is a finite list of input lines; a loop that would keep prompting
  past the provided lines is modelled as returning `none`.
-/

/-- JSON values, as produced by Python's `json` module on this repository's
data (objects keep their key insertion order; the dicts written by this
code have pairwise distinct keys). -/
inductive Json where
  | null : Json
  | bool : Bool → Json
  | num : Int → Json
  | str : String → Json
  | arr : List Json → Json
  | obj : List (String × Json) → Json

/-- Python truthiness (`if not x`) restricted to JSON values: `None`, `False`,
`0`, `""`, `[]` and `{}` are falsy. -/
def pyFalsy : Json → Bool
  | .null => true
  | .bool b => !b
  | .num n => n == 0
  | .str s => s == ""
  | .arr xs => xs.isEmpty
  | .obj kvs => kvs.isEmpty

/-- Python `d.get(key, default)`.  All `.get` calls in the repository are
applied to dicts parsed from JSON, which is the case modelled here; on a
non-dict value Python would raise `AttributeError`, a case no claim
exercises, modelled as the default. -/
def pyGet (j : Json) (key : String) (dflt : Json) : Json :=
  match j with
  | .obj kvs =>
    match kvs.lookup key with
    | some v => v
    | none => dflt
  | _ => dflt

/-! ## `tg_client.py`: Source Connector and Dump Writer -/

/-- A Telethon message as consumed by `download_messages`
(`tg_client.py:187-198`): `message.text` is `''` when the message has no
textual body (the falsy case of `if message.text`), `sender` is `None` when
the sender is unavailable. -/
structure TLMessage where
  id : Int
  date : String
  sender : Option String
  text : String
deriving DecidableEq, Repr

/-- The `message_data` dict built for one text-bearing message
(`tg_client.py:189-197`). -/
def message_data (m : TLMessage) : Json :=
  .obj [("id", .num m.id),
        ("type", .str "message"),
        ("date", .str m.date),
        ("from", .str (match m.sender with | some n => n | none => "Unknown")),
        ("text", .str m.text),
        ("media_type", .null),
        ("media_url", .null)]

/-- `download_messages` (`tg_client.py:170-205`): iterates at most `limit`
messages of the conversation (Telethon applies `limit` to the messages
yielded, newest first, before the body of the loop filters on
`message.text`), keeps the text-bearing ones, and on any exception from the
remote iteration discards everything and returns `[]`. -/
def download_messages (conv : Except String (List TLMessage)) (limit : Nat) :
    List Json :=
  match conv with
  | .error _ => []
  | .ok msgs => ((msgs.take limit).filter (fun m => m.text ≠ "")).map message_data

/-- A Telethon dialog as consumed by `get_user_channels`
(`tg_client.py:119-127`): the three `isinstance` tests on `dialog.entity`
and the attributes read from it. -/
structure TLDialog where
  entityId : Int
  title : String
  isChannel : Bool
  isChat : Bool
  isUser : Bool
  participantsCount : Option Int
deriving DecidableEq, Repr

/-- The `channel_info` dict built for one dialog (`tg_client.py:121-126`). -/
def channel_info (d : TLDialog) : Json :=
  .obj [("id", .num d.entityId),
        ("title", .str d.title),
        ("type", .str (if d.isChannel then "channel" else "group")),
        ("participants_count",
          match d.participantsCount with | some n => .num n | none => .null)]

/-- `get_user_channels` (`tg_client.py:106-134`): keeps dialogs whose entity
is a `Channel` or `Chat` but not a `User`; on any exception from the remote
iteration returns `[]`. -/
def get_user_channels (dialogs : Except String (List TLDialog)) : List Json :=
  match dialogs with
  | .error _ => []
  | .ok ds =>
    (ds.filter (fun d => (d.isChannel || d.isChat) && !d.isUser)).map channel_info

/-- The `export_data` dict built by `save_messages` (`tg_client.py:220-227`);
`messages` are the message dicts as passed in, `export_date` is the
hard-coded constant from the source (its `TODO: Use actual date` comment
included there). -/
def save_messages (messages : List Json) : Json :=
  .obj [("name", .str "Telegram Channel Export"),
        ("type", .str "channel"),
        ("export_date", .str "2024-01-01T00:00:00Z"),
        ("message_count", .num messages.length),
        ("messages", .arr messages)]

/-- Decimal digits to a number: `none` on the first non-digit character. -/
def digitsAux : List Char → Nat → Option Nat
  | [], acc => some acc
  | c :: cs, acc =>
    if c.isDigit then digitsAux cs (acc * 10 + (c.toNat - '0'.toNat))
    else none

/-- A non-empty all-digit character list as a number, `none` otherwise. -/
def digitsToNat (cs : List Char) : Option Nat :=
  if cs.isEmpty then none else digitsAux cs 0

/-- Python `int(s)` for a decimal string with an optional sign, as used on
the stdin line in the selection loops (`int` additionally tolerates
surrounding whitespace and digit-group underscores, which no claim
exercises). `none` models the `ValueError` branch. -/
def pyInt (s : String) : Option Int :=
  match s.data with
  | '-' :: cs => (digitsToNat cs).map (fun n => -(n : Int))
  | '+' :: cs => (digitsToNat cs).map (fun n => (n : Int))
  | cs => (digitsToNat cs).map (fun n => (n : Int))

/-- The retry loop of `select_channel` (`tg_client.py:156-167`) over the
remaining stdin lines: a line that fails `int()` or is out of range is
rejected and the loop re-prompts; `channels[index]` is returned for the
first in-range `index = int(choice) - 1`. -/
def select_loop (channels : List Json) : List String → Option Json
  | [] => none
  | choice :: rest =>
    match pyInt choice with
    | none => select_loop channels rest
    | some n =>
      if 0 ≤ n - 1 ∧ n - 1 < (channels.length : Int) then
        channels.get? (n - 1).toNat
      else
        select_loop channels rest

/-- `select_channel` (`tg_client.py:137-167`): returns `{}` immediately for
an empty channel list, otherwise runs the interactive retry loop on stdin. -/
def select_channel (channels : List Json) (stdin : List String) : Option Json :=
  if channels.isEmpty then some (Json.obj [])
  else select_loop channels stdin

/-! ## `process_to_kb.py`: Dump Reader, Annotating engine, Result Writer -/

/-- `load_messages` (`process_to_kb.py:33-36`): `json.load` followed by
`data.get('messages', [])`.  The argument is the parse attempt on the file:
`.error` is malformed JSON, whose exception `load_messages` does not catch,
so it propagates; on success the value under `messages` (or `[]` when the
key is absent) is returned as-is. -/
def load_messages (parsed : Except String Json) : Except String Json :=
  match parsed with
  | .error e => .error e
  | .ok data => .ok (pyGet data "messages" (.arr []))

/-- `process_message_with_openai` (`process_to_kb.py:39-70`).  The prompt
built from the message's id, date and text, and the
`client.chat.completions.create` call on it (model `gpt-4o`,
`max_tokens=200`), are abstracted as the oracle
`client : Json → Except String String`: `.ok content` is the response's
`choices[0].message.content`, `.error e` a raised exception rendered as the
string `e` (Python's `f"...{e}"`).  On success the content is returned
`.strip()`-ped; on failure the synthetic string `"[OpenAI error: " ++ e ++ "]"`
is returned instead of propagating. -/
def process_message_with_openai (msg : Json)
    (client : Json → Except String String) : String :=
  match client msg with
  | .ok content => content.trim
  | .error e => "[OpenAI error: " ++ e ++ "]"

/-- The dict appended to `processed` for one message
(`process_to_kb.py:96-99`). -/
def result_entry (client : Json → Except String String) (msg : Json) : Json :=
  .obj [("id", pyGet msg "id" .null),
        ("summary", .str (process_message_with_openai msg client))]

/-- The batch loop of `main` (`process_to_kb.py:90-100`): for each message in
order, `text = msg.get('text', '')`; a falsy text is skipped with
`continue`, otherwise one `{id, summary}` dict is appended. -/
def process_batch (client : Json → Except String String) :
    List Json → List Json
  | [] => []
  | msg :: rest =>
    if pyFalsy (pyGet msg "text" (.str "")) then
      process_batch client rest
    else
      result_entry client msg :: process_batch client rest

/-- Python `s.replace(pat, repl)` on character lists, for a non-empty `pat`
(the only way the repository calls it): replaces non-overlapping occurrences
left to right.  Structural fuel (`s.length` suffices, since each step
consumes at least one character) keeps the recursion kernel-reducible. -/
def pyReplaceAux (pat repl : List Char) : Nat → List Char → List Char
  | 0, s => s
  | fuel + 1, s =>
    match s with
    | [] => []
    | c :: cs =>
      if List.isPrefixOf pat (c :: cs) then
        repl ++ pyReplaceAux pat repl fuel ((c :: cs).drop pat.length)
      else
        c :: pyReplaceAux pat repl fuel cs

/-- Python `s.replace(pat, repl)` for a non-empty `pat`. -/
def pyReplace (s pat repl : String) : String :=
  ⟨pyReplaceAux pat.data repl.data s.data.length s.data⟩

/-- A `json.dump(..., f, ...)` call with the open-file parameters that
accompany it: the destination file name, the value written, and the
formatting arguments. -/
structure JsonWrite where
  fileName : String
  value : Json
  indent : Option Nat
  ensureAscii : Bool
  encoding : String

/-- The Result Writer tail of `main` (`process_to_kb.py:101-107`): the output
file name is `f'notes_{input_stem}.json'` where
`input_stem = selected_file.stem.replace('raw_dump_', '')`, and the
collected results are dumped there as one JSON array with
`encoding='utf-8'`, `indent=2`, `ensure_ascii=False`. -/
def result_write (stem : String) (results : List Json) : JsonWrite :=
  { fileName := "notes_" ++ pyReplace stem "raw_dump_" "" ++ ".json"
    value := .arr results
    indent := some 2
    ensureAscii := false
    encoding := "utf-8" }

/-- Modelled from the spec's words for comparison with `result_write` (C9):
the input stem "with the fixed prefix `raw_dump_` stripped", i.e. the
leading occurrence removed when the stem starts with it, and the fixed
`notes_` added. -/
def spec_result_fileName (stem : String) : String :=
  "notes_" ++
    (if List.isPrefixOf ("raw_dump_".data) stem.data then
      String.mk (stem.data.drop ("raw_dump_".data).length)
    else stem) ++ ".json"

/-- Occurrence test: does `pat` occur as a contiguous run anywhere in the
list? -/
def containsSub (pat : List Char) : List Char → Bool
  | [] => List.isPrefixOf pat []
  | c :: cs => List.isPrefixOf pat (c :: cs) || containsSub pat cs

/-- A two-message conversation whose newest message has no textual body
(e.g. a media post): one text-bearing message in total. -/
def mediaThenText : List TLMessage :=
  [⟨10, "2024-01-02T00:00:00+00:00", none, ""⟩,
   ⟨9, "2024-01-01T00:00:00+00:00", some "Alice", "hello"⟩]

/-- First entry of a three-channel menu. -/
def chanA : Json :=
  .obj [("id", .num 1), ("title", .str "Alpha"), ("type", .str "channel"),
        ("participants_count", .null)]

/-- Second entry of a three-channel menu. -/
def chanB : Json :=
  .obj [("id", .num 2), ("title", .str "Beta"), ("type", .str "channel"),
        ("participants_count", .null)]

/-- Third entry of a three-channel menu. -/
def chanC : Json :=
  .obj [("id", .num 3), ("title", .str "Gamma"), ("type", .str "channel"),
        ("participants_count", .null)]

/-! ## Theorems -/

/-- A list is a `isPrefixOf` of itself followed by anything. -/
theorem isPrefixOf_append_self (l t : List Char) :
    List.isPrefixOf l (l ++ t) = true := by
  induction l with
  | nil => cases t <;> rfl
  | cons c cs ih => simp [List.isPrefixOf, ih]

/-- C2: writing a message sequence with `save_messages` and loading the
written file with `load_messages` returns exactly the sequence written —
same count, same field values (the loaded value is the written list
itself). -/
theorem c2_dump_round_trip (messages : List Json) :
    load_messages (.ok (save_messages messages)) = .ok (.arr messages) := rfl

/-- C5: in any dump written by `save_messages`, the value stored under
`message_count` is the length of the array stored under `messages`. -/
theorem c5_message_count_invariant (messages ms : List Json)
    (h : pyGet (save_messages messages) "messages" .null = .arr ms) :
    pyGet (save_messages messages) "message_count" .null = .num ms.length := by
  have hms : messages = ms := by
    have : Json.arr messages = .arr ms := h
    injection this
  subst hms
  rfl

/-- Witness for C5 at a concrete one-message dump. -/
theorem c5_message_count_invariant_witness :
    pyGet (save_messages [Json.null]) "message_count" .null = .num 1 :=
  c5_message_count_invariant [Json.null] [Json.null] rfl

/-- C10: every dump written by `save_messages` carries the constant values
`name = "Telegram Channel Export"`, `type = "channel"` and
`export_date = "2024-01-01T00:00:00Z"`; in particular `export_date` is the
same for any two exports, never the actual export time. -/
theorem c10_constant_export_fields (messages other : List Json) :
    pyGet (save_messages messages) "name" .null = .str "Telegram Channel Export" ∧
    pyGet (save_messages messages) "type" .null = .str "channel" ∧
    pyGet (save_messages messages) "export_date" .null
      = .str "2024-01-01T00:00:00Z" ∧
    pyGet (save_messages messages) "export_date" .null
      = pyGet (save_messages other) "export_date" .null :=
  ⟨rfl, rfl, rfl, rfl⟩

/-- C6: when the remote iteration raises, `get_user_channels` and
`download_messages` catch it and return the empty list; both functions are
total into `List Json`, so no exception reaches the caller. -/
theorem c6_remote_failure_empty (e : String) (limit : Nat) :
    get_user_channels (.error e) = [] ∧ download_messages (.error e) limit = [] :=
  ⟨rfl, rfl⟩

/-- C8: `load_messages` returns the value under the top-level `messages`
key, returns the empty sequence when the key is absent, and propagates (does
not catch) a parse failure of the file. -/
theorem c8_load_messages_contract (e : String) (kvs : List (String × Json))
    (v : Json) :
    load_messages (.error e) = .error e ∧
    (kvs.lookup "messages" = none →
      load_messages (.ok (.obj kvs)) = .ok (.arr [])) ∧
    (kvs.lookup "messages" = some v →
      load_messages (.ok (.obj kvs)) = .ok v) := by
  refine ⟨rfl, fun h => ?_, fun h => ?_⟩
  · simp [load_messages, pyGet, h]
  · simp [load_messages, pyGet, h]

/-- Witness for C8 at a malformed file, a dump without a `messages` key and
a dump with one. -/
theorem c8_load_messages_contract_witness :
    load_messages (.error "boom") = .error "boom" ∧
    load_messages (.ok (.obj [("count", .num 0)])) = .ok (.arr []) ∧
    load_messages (.ok (.obj [("messages", .str "v")])) = .ok (.str "v") :=
  ⟨(c8_load_messages_contract "boom" [] .null).1,
   (c8_load_messages_contract "boom" [("count", .num 0)] .null).2.1 rfl,
   (c8_load_messages_contract "boom" [("messages", .str "v")] (.str "v")).2.2 rfl⟩

/-- C1 counterexample: with `mediaThenText` (N = 1 text-bearing message) and
`limit = 1`, `download_messages` returns 0 messages, not `min(N, L) = 1`:
Telethon's `limit` caps the messages iterated before the text filter runs,
so the newest textless message uses up the single slot. -/
theorem c1_counterexample :
    (download_messages (.ok mediaThenText) 1).length
      ≠ min (mediaThenText.countP (fun m => decide (m.text ≠ ""))) 1 := by
  decide

/-- C1 amended: `download_messages` returns exactly the text-bearing
messages among the newest `min(total, L)` messages of the conversation,
each with non-empty text, in newest-first (source) order; the count is the
number of text-bearing messages among the newest `L`, which equals
`min(N, L)` whenever every message of the conversation is text-bearing. -/
theorem c1_download_messages_amended (msgs : List TLMessage) (limit : Nat) :
    ((∀ m ∈ msgs, m.text ≠ "") →
      (download_messages (.ok msgs) limit).length = min msgs.length limit) ∧
    (download_messages (.ok msgs) limit).length
      = (msgs.take limit).countP (fun m => decide (m.text ≠ "")) ∧
    (∀ j ∈ download_messages (.ok msgs) limit,
      ∃ m, m ∈ msgs.take limit ∧ m.text ≠ "" ∧ j = message_data m) ∧
    (download_messages (.ok msgs) limit).Sublist (msgs.map message_data) := by
  refine ⟨fun hall => ?_, ?_, fun j hj => ?_, ?_⟩
  · have hfilter : (msgs.take limit).filter (fun m => !decide (m.text = ""))
        = msgs.take limit := by
      rw [List.filter_eq_self]
      intro a ha
      simp [hall a (List.mem_of_mem_take ha)]
    simp [download_messages, hfilter, Nat.min_comm]
  · simp [download_messages, List.countP_eq_length_filter]
  · rcases List.mem_map.mp hj with ⟨m, hm, rfl⟩
    rcases List.mem_filter.mp hm with ⟨hmem, hp⟩
    refine ⟨m, hmem, ?_, rfl⟩
    simpa using hp
  · exact ((List.filter_sublist _).trans (List.take_sublist _ _)).map message_data

/-- Witness for C1 at a conversation with three text-bearing messages and
`limit = 2`. -/
theorem c1_download_messages_amended_witness :
    (download_messages
        (.ok [⟨3, "d3", some "A", "x"⟩, ⟨2, "d2", none, "y"⟩,
              ⟨1, "d1", some "B", "z"⟩]) 2).length
      = min ([⟨3, "d3", some "A", "x"⟩, ⟨2, "d2", none, "y"⟩,
              (⟨1, "d1", some "B", "z"⟩ : TLMessage)] : List TLMessage).length 2 :=
  (c1_download_messages_amended
    [⟨3, "d3", some "A", "x"⟩, ⟨2, "d2", none, "y"⟩, ⟨1, "d1", some "B", "z"⟩]
    2).1 (by decide)

/-- C3: the batch loop emits exactly one `{id, summary}` result per message
with truthy (non-empty) text, in input order — its output is the input
filtered to those messages and mapped to their result entries — and a
message with empty text contributes no result, so the output length is the
count of non-empty-text messages. -/
theorem c3_batch_one_result_per_text_message
    (client : Json → Except String String) (msgs : List Json) :
    process_batch client msgs
      = (msgs.filter (fun m => !pyFalsy (pyGet m "text" (.str "")))).map
          (result_entry client) ∧
    (process_batch client msgs).length
      = msgs.countP (fun m => !pyFalsy (pyGet m "text" (.str ""))) := by
  have heq : process_batch client msgs
      = (msgs.filter (fun m => !pyFalsy (pyGet m "text" (.str "")))).map
          (result_entry client) := by
    induction msgs with
    | nil => rfl
    | cons m rest ih =>
      by_cases h : pyFalsy (pyGet m "text" (.str "")) = true
      · simp [process_batch, List.filter_cons, h, ih]
      · simp only [Bool.not_eq_true] at h
        simp [process_batch, List.filter_cons, h, ih]
  refine ⟨heq, ?_⟩
  rw [heq]
  simp [List.countP_eq_length_filter]

/-- C4: a failing annotation call makes `process_message_with_openai` return
the synthetic string `"[OpenAI error: " ++ e ++ "]"` — which carries the
fixed identifiable marker as its leading characters — instead of
propagating, and the batch loop still produces the results of every message
before and after the failing one. -/
theorem c4_annotation_failure_marker
    (client : Json → Except String String) (msg : Json) (e : String)
    (pre suf : List Json)
    (hfail : client msg = .error e)
    (htext : pyFalsy (pyGet msg "text" (.str "")) = false) :
    process_message_with_openai msg client = "[OpenAI error: " ++ e ++ "]" ∧
    List.isPrefixOf ("[OpenAI error: ".data)
      (process_message_with_openai msg client).data = true ∧
    process_batch client (pre ++ msg :: suf)
      = process_batch client pre
          ++ result_entry client msg :: process_batch client suf := by
  have hout : process_message_with_openai msg client
      = "[OpenAI error: " ++ e ++ "]" := by
    simp [process_message_with_openai, hfail]
  refine ⟨hout, ?_, ?_⟩
  · rw [hout]
    simp only [String.data_append, List.append_assoc]
    exact isPrefixOf_append_self _ _
  · induction pre with
    | nil => simp [process_batch, htext]
    | cons p rest ih =>
      by_cases hp : pyFalsy (pyGet p "text" (.str "")) = true
      · simp [process_batch, hp, ih]
      · simp only [Bool.not_eq_true] at hp
        simp [process_batch, hp, ih]

/-- Witness for C4: a client that always fails, a text-bearing message
between two others. -/
theorem c4_annotation_failure_marker_witness :
    process_message_with_openai (.obj [("id", .num 1), ("text", .str "hi")])
        (fun _ => .error "boom") = "[OpenAI error: " ++ "boom" ++ "]" ∧
    List.isPrefixOf ("[OpenAI error: ".data)
      (process_message_with_openai (.obj [("id", .num 1), ("text", .str "hi")])
        (fun _ => .error "boom")).data = true ∧
    process_batch (fun _ => .error "boom")
        ([.obj [("id", .num 0), ("text", .str "a")]]
          ++ Json.obj [("id", .num 1), ("text", .str "hi")]
            :: [.obj [("id", .num 2), ("text", .str "b")]])
      = process_batch (fun _ => .error "boom")
          [.obj [("id", .num 0), ("text", .str "a")]]
          ++ result_entry (fun _ => .error "boom")
              (.obj [("id", .num 1), ("text", .str "hi")])
            :: process_batch (fun _ => .error "boom")
                [.obj [("id", .num 2), ("text", .str "b")]] :=
  c4_annotation_failure_marker (fun _ => .error "boom")
    (.obj [("id", .num 1), ("text", .str "hi")]) "boom"
    [.obj [("id", .num 0), ("text", .str "a")]]
    [.obj [("id", .num 2), ("text", .str "b")]] rfl rfl

/-- C7 counterexample: with the input sequence `"abc", "99", "2"` against the
three-item list `[chanA, chanB, chanC]`, the selector returns `chanB` — the
item at 1-based position 2 — and not the third item `chanC` as claimed. -/
theorem c7_counterexample :
    select_channel [chanA, chanB, chanC] ["abc", "99", "2"] = some chanB ∧
    chanB ≠ chanC := by
  refine ⟨by rfl, fun h => ?_⟩
  simp [chanB, chanC] at h

/-- C7 amended: given `"abc", "99", "2"` against a 3-item list, the selector
rejects the first two inputs and returns the second item (input `2` selects
1-based position 2); generally the loop skips any input that fails integer
parsing or is out of range, and returns the item at 1-based position `n`
for the first in-range parsed input `n`. -/
theorem c7_selector_amended (channels : List Json) (stdin : List String)
    (s : String) (hne : channels ≠ []) :
    (pyInt s = none →
      select_channel channels (s :: stdin) = select_channel channels stdin) ∧
    (∀ n : Int, pyInt s = some n → ¬(1 ≤ n ∧ n ≤ channels.length) →
      select_channel channels (s :: stdin) = select_channel channels stdin) ∧
    (∀ n : Int, pyInt s = some n → 1 ≤ n → n ≤ channels.length →
      select_channel channels (s :: stdin) = channels.get? (n - 1).toNat) ∧
    select_channel [chanA, chanB, chanC] ["abc", "99", "2"] = some chanB := by
  have hE : channels.isEmpty = false := by
    cases channels with
    | nil => exact absurd rfl hne
    | cons a l => rfl
  have hsel : ∀ ins, select_channel channels ins = select_loop channels ins := by
    intro ins
    simp [select_channel, hE]
  refine ⟨fun h => ?_, fun n h hr => ?_, fun n h h1 h2 => ?_, by rfl⟩
  · rw [hsel, hsel]
    simp only [select_loop, h]
  · have hcond : ¬(0 ≤ n - 1 ∧ n - 1 < (channels.length : Int)) := by omega
    rw [hsel, hsel]
    simp only [select_loop, h]
    rw [if_neg hcond]
  · have hcond : 0 ≤ n - 1 ∧ n - 1 < (channels.length : Int) := by omega
    rw [hsel]
    simp only [select_loop, h]
    rw [if_pos hcond]

/-- Witness for C7: a one-item menu selected by input `"1"`, and the
three-input scenario. -/
theorem c7_selector_amended_witness :
    select_channel [chanA] ["1"] = [chanA].get? ((1 : Int) - 1).toNat ∧
    select_channel [chanA, chanB, chanC] ["abc", "99", "2"] = some chanB :=
  ⟨(c7_selector_amended [chanA] [] "1" (by simp)).2.2.1 1 rfl (by decide)
      (by decide),
   (c7_selector_amended [chanA] [] "1" (by simp)).2.2.2⟩

/-- A pattern that occurs nowhere in the list is never replaced, whatever
the fuel. -/
theorem pyReplaceAux_of_not_contains (pat repl : List Char) (s : List Char)
    (h : containsSub pat s = false) :
    ∀ fuel, pyReplaceAux pat repl fuel s = s := by
  induction s with
  | nil =>
    intro fuel
    cases fuel <;> rfl
  | cons c cs ih =>
    intro fuel
    cases fuel with
    | zero => rfl
    | succ f =>
      rw [containsSub, Bool.or_eq_false_iff] at h
      simp [pyReplaceAux, h.1, ih h.2 f]

/-- One replacement step at the head: when the non-empty pattern leads the
list and occurs nowhere in the remainder, the result is the replacement
followed by the untouched remainder. -/
theorem pyReplaceAux_strip (pat repl r : List Char) (hpat : pat ≠ [])
    (hr : containsSub pat r = false) (fuel : Nat) :
    pyReplaceAux pat repl (fuel + 1) (pat ++ r) = repl ++ r := by
  cases pat with
  | nil => exact absurd rfl hpat
  | cons p ps =>
    have hpre : List.isPrefixOf (p :: ps) ((p :: ps) ++ r) = true :=
      isPrefixOf_append_self _ _
    show pyReplaceAux (p :: ps) repl (fuel + 1) (p :: (ps ++ r)) = repl ++ r
    rw [pyReplaceAux]
    simp only [← List.cons_append, hpre, if_true]
    rw [List.drop_left]
    rw [pyReplaceAux_of_not_contains (p :: ps) repl r hr fuel]

/-- C9 counterexample: for a selected dump file with stem `a_raw_dump_b`
(the fixed string occurring in the middle, not as a leading run), the
code's `str.replace` removes the inner occurrence, so the produced file
name `notes_a_b.json` differs from the spec's prefix-stripped derivation
`notes_a_raw_dump_b.json`. -/
theorem c9_counterexample :
    (result_write "a_raw_dump_b" []).fileName
      ≠ spec_result_fileName "a_raw_dump_b" := by
  decide

/-- C9 amended: the output file name is the input stem with every occurrence
of `raw_dump_` removed and `notes_` prepended (plus the `.json` suffix);
when `raw_dump_` occurs only as the leading run of the stem — the shape the
fetch phase produces — this coincides with the spec's prefix-stripping
description; and the results are written as a single JSON array, UTF-8
encoded, indent 2, non-ASCII characters unescaped. -/
theorem c9_result_write_amended (stem r : String) (results : List Json)
    (hstem : stem = "raw_dump_" ++ r)
    (hr : containsSub ("raw_dump_".data) r.data = false) :
    (result_write stem results).fileName = "notes_" ++ r ++ ".json" ∧
    (result_write stem results).fileName = spec_result_fileName stem ∧
    (result_write stem results).value = .arr results ∧
    (result_write stem results).indent = some 2 ∧
    (result_write stem results).ensureAscii = false ∧
    (result_write stem results).encoding = "utf-8" := by
  subst hstem
  have hdata : ("raw_dump_" ++ r).data = "raw_dump_".data ++ r.data :=
    String.data_append _ _
  have hlen : ("raw_dump_" ++ r).data.length = (r.data.length + 8) + 1 := by
    rw [hdata, List.length_append]
    have h9 : ("raw_dump_".data).length = 9 := by decide
    omega
  have hrepl : pyReplace ("raw_dump_" ++ r) "raw_dump_" "" = r := by
    rw [pyReplace, hlen, hdata]
    rw [pyReplaceAux_strip _ _ _ (by decide) hr]
    rfl
  have hspec : spec_result_fileName ("raw_dump_" ++ r)
      = "notes_" ++ r ++ ".json" := by
    rw [spec_result_fileName, hdata]
    rw [if_pos (isPrefixOf_append_self _ _), List.drop_left]
  refine ⟨?_, ?_, rfl, rfl, rfl, rfl⟩
  · show "notes_" ++ pyReplace ("raw_dump_" ++ r) "raw_dump_" "" ++ ".json"
        = "notes_" ++ r ++ ".json"
    rw [hrepl]
  · show "notes_" ++ pyReplace ("raw_dump_" ++ r) "raw_dump_" "" ++ ".json"
        = spec_result_fileName ("raw_dump_" ++ r)
    rw [hrepl, hspec]

/-- Witness for C9 at the stem `raw_dump_chat`. -/
theorem c9_result_write_amended_witness :
    (result_write "raw_dump_chat" [Json.null]).fileName
        = "notes_" ++ "chat" ++ ".json" ∧
    (result_write "raw_dump_chat" [Json.null]).fileName
        = spec_result_fileName "raw_dump_chat" :=
  ⟨(c9_result_write_amended "raw_dump_chat" "chat" [Json.null] (by decide)
      (by decide)).1,
   (c9_result_write_amended "raw_dump_chat" "chat" [Json.null] (by decide)
      (by decide)).2.1⟩
